import Mathlib

/-!
Verification of the anzen bank-statement import pipeline.

The definitions below are a shallow embedding of
`supabase/functions/parse-bca-statement/index.ts` (the PDF text extractor,
the transaction segmenter/record builder `parseBCAStatement`, and the amount
normalizer `parseAmount`) and of the reconciliation-state operations in
`src/components/finance/BankReconciliationEnhanced.tsx`.

Conventions: JS strings are modelled as Lean `String`/`List Char`. Every
number flowing through the parsing pipeline is obtained by `parseFloat` on a
string of decimal digits with at most one point, so JS numbers are modelled
exactly as decimal values `mant / 10 ^ scale` (`Dec` below), interpreted in
`ℚ` by `Dec.toQ`; `parseFloat`'s NaN is modelled as `Option.none`. Database
writes performed through the Supabase client are modelled as explicit state
passing, with each write's success/failure injected as a `Bool` flag since it
is decided by the external store. The `while` loops of the parser are
modelled by structural recursion on an explicit `fuel` bound equal to the
number of lines, which dominates the loops' variants (`lines.length - i`),
so the fuel-exhaustion branches are unreachable at the call sites.
-/

namespace Anzen

/-! ## Exact decimal values -/

/-- An exact decimal number with value `mant / 10 ^ scale`: the form of every
number the parser produces (`parseFloat` of a digit string with an optional
decimal point). The cleaning step of `parseAmount` removes every character
other than digits, commas and dots, so no sign ever reaches `parseFloat` and
a natural mantissa is faithful. -/
structure Dec where
  mant : Nat
  scale : Nat
deriving DecidableEq

/-- The rational value of a decimal. -/
def Dec.toQ (d : Dec) : ℚ := (d.mant : ℚ) / 10 ^ d.scale

/-- Value comparison of two decimals (JS less-than on numbers). -/
def Dec.blt (a b : Dec) : Bool := a.mant * 10 ^ b.scale < b.mant * 10 ^ a.scale

/-- The number 0 (the initial accumulator of the totals reduce). -/
def Dec.zero : Dec := ⟨0, 0⟩

/-- Value addition of two decimals (JS addition on numbers). -/
def Dec.add (a b : Dec) : Dec :=
  ⟨a.mant * 10 ^ b.scale + b.mant * 10 ^ a.scale, a.scale + b.scale⟩

/-! ## Character classes (JS regex classes used by the source) -/

/-- The character class of the amount regexes: digits, comma, and dot. -/
def isAmountChar (c : Char) : Bool := c.isDigit || c = ',' || c = '.'

/-- JS regex word class: ASCII letters, digits and underscore (only ASCII
occurs in the scanned statements). -/
def isWordChar (c : Char) : Bool := c.isAlphanum || c = '_'

/-- JS regex whitespace class, restricted to the ASCII whitespace that the
extractor can produce. -/
def isSpaceChar (c : Char) : Bool := c.isWhitespace

/-- Digits-to-number accumulation, as `parseInt` performs on an all-digit
string. -/
def digitsToNat (cs : List Char) : Nat :=
  cs.foldl (fun n c => 10 * n + (c.toNat - '0'.toNat)) 0

/-! ## The amount normalizer `parseAmount` (index.ts lines 337-347) -/

/-- Model of JS `parseFloat` on strings over digits, comma and dot (the only
characters that survive `parseAmount`'s cleaning step): parse the longest
prefix of shape digits, optionally followed by a point and more digits; at
least one digit must be present or the result is NaN, modelled as `none`. -/
def parseFloatDec (cs : List Char) : Option Dec :=
  let ip := cs.takeWhile Char.isDigit
  let rest := cs.dropWhile Char.isDigit
  match rest with
  | '.' :: rest2 =>
    let fp := rest2.takeWhile Char.isDigit
    if ip.isEmpty && fp.isEmpty then none
    else some ⟨digitsToNat (ip ++ fp), fp.length⟩
  | _ => if ip.isEmpty then none else some ⟨digitsToNat ip, 0⟩

/-- Number of occurrences of a character, as counted by the
match-against-a-global-regex-or-empty-array idiom of the source. -/
def countChar (cs : List Char) (c : Char) : Nat := (cs.filter (· = c)).length

/-- JS replace with a global one-character regex and empty replacement:
remove every occurrence. -/
def removeChar (cs : List Char) (c : Char) : List Char := cs.filter (· ≠ c)

/-- JS replace of a comma by a point with a plain string pattern: a
non-global string-pattern replace rewrites only the first occurrence. -/
def commaToPoint : List Char → List Char
  | [] => []
  | c :: rest => if c = ',' then '.' :: rest else c :: commaToPoint rest

/-- The function `parseAmount` of index.ts lines 337-347: an empty argument
is falsy and returns 0 at once; otherwise every character other than digits,
comma and dot is stripped, the separators are disambiguated by the five-way
branch, and the result is parsed, with the trailing or-zero sending
`parseFloat`'s NaN to 0. -/
def parseAmount (str : String) : Dec :=
  if str = "" then Dec.zero
  else
    let cleaned := str.data.filter isAmountChar
    let dots := countChar cleaned '.'
    let commas := countChar cleaned ','
    let final :=
      if dots > 1 then commaToPoint (removeChar cleaned '.')
      else if commas > 1 then removeChar cleaned ','
      else if dots = 1 && commas = 1 then commaToPoint (removeChar cleaned '.')
      else if commas = 1 && dots = 0 then commaToPoint cleaned
      else cleaned
    (parseFloatDec final).getD Dec.zero

/-- The five disambiguation steps as the specification words them, applied to
an input already restricted to digits, dots and commas: more than one dot
strips the dots and converts the comma; else more than one comma strips the
commas; else one dot and one comma strips the dot and converts the comma;
else a lone comma becomes the decimal point; else direct parse. The result is
the parsed decimal, or 0 if unparseable. -/
def parseAmountSpec (str : String) : Dec :=
  let cs := str.data
  let dots := countChar cs '.'
  let commas := countChar cs ','
  let final :=
    if dots > 1 then commaToPoint (removeChar cs '.')
    else if commas > 1 then removeChar cs ','
    else if dots = 1 && commas = 1 then commaToPoint (removeChar cs '.')
    else if commas = 1 then commaToPoint cs
    else cs
  (parseFloatDec final).getD Dec.zero

/-! ## Transaction segmentation (index.ts lines 219-318) -/

/-- The date-anchor test of the scan loop: the anchored two-digit slash
two-digit regex, followed by the range checks day in [1,31] and month in
[1,12] (lines 228-240 for the outer loop; the inner loop at lines 248-254
performs the identical combined test before breaking). Returns the parsed
day and month when the line is a valid anchor. -/
def anchorDayMon (l : String) : Option (Nat × Nat) :=
  match l.data with
  | [d1, d2, '/', m1, m2] =>
    if d1.isDigit && d2.isDigit && m1.isDigit && m2.isDigit then
      let day := digitsToNat [d1, d2]
      let mon := digitsToNat [m1, m2]
      if 1 ≤ day && day ≤ 31 && 1 ≤ mon && mon ≤ 12 then some (day, mon)
      else none
    else none
  | _ => none

/-- A line is a valid date anchor. -/
def isValidAnchor (l : String) : Bool := (anchorDayMon l).isSome

/-- The inner lookahead loop (index.ts lines 242-260): starting at index `j`
with the lines pushed so far in `acc`, keep collecting lines until the next
valid date anchor or the end of input; the source pushes the line, advances
`j`, and only then breaks when the block holds more than 30 lines, so the cap
stops the block after the 31st pushed line. Returns the block lines and the
final value of `j`. The loop advances `j` by one per iteration, so any
`fuel ≥ lines.length - j` makes the fuel-exhaustion case unreachable while
`j < lines.length`; every call site passes `fuel = lines.length`. -/
def collectBlock (lines : List String) : Nat → Nat → List String →
    List String × Nat
  | 0, j, acc => (acc, j)
  | fuel + 1, j, acc =>
    if h : j < lines.length then
      if isValidAnchor lines[j] then (acc, j)
      else if acc.length + 1 > 30 then (acc ++ [lines[j]], j + 1)
      else collectBlock lines fuel (j + 1) (acc ++ [lines[j]])
    else (acc, j)

/-- Case-insensitive prefix test (ASCII case folding, as the ignore-case flag
acts on the keywords of the source regexes). -/
def startsWithCI : List Char → List Char → Bool
  | _, [] => true
  | [], _ :: _ => false
  | c :: cs, p :: ps => c.toUpper = p.toUpper && startsWithCI cs ps

/-- Case-insensitive substring containment: the effect of testing a
case-insensitive alternation regex of plain words against a string. -/
def containsCI : List Char → List Char → Bool
  | [], pat => startsWithCI [] pat
  | c :: rest, pat => startsWithCI (c :: rest) pat || containsCI rest pat

/-- The header/footer keywords of the discard regex (index.ts line 264). -/
def headerKeywords : List String :=
  ["TANGGAL", "KETERANGAN", "CABANG", "MUTASI", "SALDO", "Halaman", "Bersambung"]

/-- Matching the full text against the case-insensitive keyword alternation
(index.ts line 264) is non-null exactly when some keyword occurs
case-insensitively as a substring. -/
def isHeaderBlock (s : String) : Bool :=
  headerKeywords.any (fun k => containsCI s.data k.data)

/-- The global amount regex of index.ts line 275: successive exec calls yield
exactly the maximal runs of digits, commas and dots, in order; `cur` holds
the reversed characters of the run in progress. -/
def numericRunsAux : List Char → List Char → List String
  | cur, [] => if cur.isEmpty then [] else [String.mk cur.reverse]
  | cur, c :: cs =>
    if isAmountChar c then numericRunsAux (c :: cur) cs
    else if cur.isEmpty then numericRunsAux [] cs
    else String.mk cur.reverse :: numericRunsAux [] cs

/-- All maximal runs of digits, commas and dots in a character stream. -/
def numericRuns (cs : List Char) : List String := numericRunsAux [] cs

/-- The credit-marker test of index.ts line 289: an occurrence of the two
letters C,R (case-insensitive) with a word boundary on each side, that is no
word character on either side; `prev` is the character just before the
current position, if any. -/
def hasCRWord : Option Char → List Char → Bool
  | prev, c1 :: c2 :: rest =>
    (c1.toUpper = 'C' && c2.toUpper = 'R'
      && (match prev with | none => true | some p => !isWordChar p)
      && (match rest with | [] => true | c3 :: _ => !isWordChar c3))
    || hasCRWord (some c1) (c2 :: rest)
  | _, _ => false

/-- A text contains a standalone CR marker. -/
def isCreditText (s : String) : Bool := hasCRWord none s.data

/-- Leftmost-match search: try the position matcher at every suffix, left to
right, as a non-global regex match does. -/
def scanFirst {α : Type} (f : List Char → Option α) : List Char → Option α
  | [] => f []
  | c :: cs =>
    match f (c :: cs) with
    | some r => some r
    | none => scanFirst f cs

/-- One attempt of the reference regex of index.ts line 294 at the current
position: four digits, a slash, then a maximal nonempty run of word
characters and slashes. -/
def refMatchAt (cs : List Char) : Option String :=
  match cs with
  | a :: b :: c :: d :: '/' :: rest =>
    if a.isDigit && b.isDigit && c.isDigit && d.isDigit then
      let run := rest.takeWhile (fun x => isWordChar x || x = '/')
      if run.isEmpty then none
      else some (String.mk (a :: b :: c :: d :: '/' :: run))
    else none
  | _ => none

/-! ## Statement header fields (index.ts lines 192-217) -/

/-- Case-insensitive literal match at the current position, returning the
original (not case-folded) matched characters and the remainder. -/
def matchCI : List Char → List Char → Option (List Char × List Char)
  | cs, [] => some ([], cs)
  | [], _ :: _ => none
  | c :: cs, p :: ps =>
    if c.toUpper = p.toUpper then
      match matchCI cs ps with
      | some (m, rest) => some (c :: m, rest)
      | none => none
    else none

/-- The month-name alternation of the period regex, with the month numbers of
the month table of index.ts lines 200-203; no name is a prefix of another, so
JS alternation order is immaterial. -/
def monthNames : List (String × Nat) :=
  [("JANUARI", 1), ("FEBRUARI", 2), ("MARET", 3), ("APRIL", 4), ("MEI", 5),
   ("JUNI", 6), ("JULI", 7), ("AGUSTUS", 8), ("SEPTEMBER", 9), ("OKTOBER", 10),
   ("NOVEMBER", 11), ("DESEMBER", 12)]

/-- Try each month name of the alternation at the current position. -/
def tryMonths : List (String × Nat) → List Char → Option (List Char × List Char)
  | [], _ => none
  | (name, _) :: rest, cs =>
    match matchCI cs name.data with
    | some (m, r) => some (m, r)
    | none => tryMonths rest cs

/-- The month-map lookup with its or-one default (index.ts line 204). -/
def monthMapLookup (s : String) : Nat :=
  ((monthNames.find? (fun p => p.1 == s)).map (·.2)).getD 1

/-- One attempt of the period regex (index.ts line 196) at the current
position: the literal PERIODE case-insensitively, one or more colons or
whitespace, a month name, one or more whitespace, four digits. Returns the
two capture groups (month name as matched, year digits). The greedy
character-class runs never need backtracking because each following piece
starts with a character outside the class. -/
def periodMatchAt (cs : List Char) : Option (List Char × List Char) :=
  match matchCI cs "PERIODE".data with
  | none => none
  | some (_, r1) =>
    if (r1.takeWhile (fun c => c = ':' || isSpaceChar c)).isEmpty then none
    else
      match tryMonths monthNames (r1.dropWhile (fun c => c = ':' || isSpaceChar c)) with
      | none => none
      | some (mname, r2) =>
        if (r2.takeWhile isSpaceChar).isEmpty then none
        else
          match r2.dropWhile isSpaceChar with
          | y1 :: y2 :: y3 :: y4 :: _ =>
            if y1.isDigit && y2.isDigit && y3.isDigit && y4.isDigit then
              some (mname, [y1, y2, y3, y4])
            else none
          | _ => none

/-- One attempt of the opening/closing balance regex (index.ts lines 208 and
212) at the current position: the literal SALDO, whitespace, the given label
(AWAL or AKHIR), optional colons/whitespace, then the captured nonempty run
of digits, commas and dots. -/
def saldoMatchAt (label : String) (cs : List Char) : Option String :=
  match matchCI cs "SALDO".data with
  | none => none
  | some (_, r1) =>
    if (r1.takeWhile isSpaceChar).isEmpty then none
    else
      match matchCI (r1.dropWhile isSpaceChar) label.data with
      | none => none
      | some (_, r2) =>
        let r3 := r2.dropWhile (fun c => c = ':' || isSpaceChar c)
        let run := r3.takeWhile isAmountChar
        if run.isEmpty then none else some (String.mk run)

/-- Two-digit zero padding of a number rendered in decimal, as the source's
padStart of width 2 with the zero character. -/
def pad2 (n : Nat) : String :=
  if n < 10 then "0" ++ toString n else toString n

/-- JS Date maps two-digit year arguments to 1900 plus the year. -/
def jsFullYear (y : Nat) : Nat := if y ≤ 99 then 1900 + y else y

/-- Gregorian leap-year rule, as JS Date implements it. -/
def isLeap (y : Nat) : Bool := y % 4 = 0 && (y % 100 ≠ 0 || y % 400 = 0)

/-- Day-of-month count of index.ts line 216: constructing a JS Date at day 0
of the following month index and reading its date gives the number of days
of the 1-based month `mon`. -/
def daysInMonth (year mon : Nat) : Nat :=
  if mon = 2 then (if isLeap (jsFullYear year) then 29 else 28)
  else if mon = 4 || mon = 6 || mon = 9 || mon = 11 then 30
  else 31

/-- The transaction date template of index.ts line 301. -/
def dateString (year mon day : Nat) : String :=
  toString year ++ "-" ++ pad2 mon ++ "-" ++ pad2 day

/-- JS split on a single separator character: consecutive separators and a
trailing separator produce empty segments, and the empty string yields one
empty segment. -/
def splitOnChar (sep : Char) : List Char → List (List Char)
  | [] => [[]]
  | c :: rest =>
    if c = sep then [] :: splitOnChar sep rest
    else
      match splitOnChar sep rest with
      | [] => [[c]]
      | g :: gs => (c :: g) :: gs

/-- JS trim: drop whitespace from both ends. -/
def trimChars (cs : List Char) : List Char :=
  (((cs.dropWhile isSpaceChar).reverse).dropWhile isSpaceChar).reverse

/-- The line preprocessing of index.ts line 219: split on newlines, trim each
line, keep the nonempty ones. -/
def splitLines (text : String) : List String :=
  (((splitOnChar '\n' text.data).map trimChars).filter
    (fun l => l.length > 0)).map String.mk

/-! ## Record builder and scan loop (index.ts lines 222-318) -/

structure ParsedTransaction where
  date : String
  description : String
  reference : String
  branchCode : String
  debitAmount : Dec
  creditAmount : Dec
  balance : Option Dec
deriving DecidableEq

/-- The per-block portion of the scan-loop body (index.ts lines 262-311):
join the block with spaces, discard header/footer blocks, blocks whose
trimmed text is shorter than 3 characters, and blocks with no amount in the
open interval (0, 1e11); otherwise build the transaction: the first retained
amount, the CR marker for direction, the last retained amount as balance when
more than one remains, the first reference-pattern match, and the block
joined with pipe separators truncated to 500 characters as description.
`none` means the block is discarded. -/
def buildRecord (year day mon : Nat) (blockLines : List String) :
    Option ParsedTransaction :=
  let fullText := " ".intercalate blockLines
  if isHeaderBlock fullText then none
  else if (trimChars fullText.data).length < 3 then none
  else
    let amounts := ((numericRuns fullText.data).map parseAmount).filter
      (fun a => Dec.zero.blt a && a.blt ⟨100000000000, 0⟩)
    if amounts.isEmpty then none
    else
      some {
        date := dateString year mon day
        description := String.mk ((" | ".intercalate blockLines).data.take 500)
        reference := (scanFirst refMatchAt fullText.data).getD ""
        branchCode := ""
        debitAmount := if isCreditText fullText then Dec.zero else amounts.headD Dec.zero
        creditAmount := if isCreditText fullText then amounts.headD Dec.zero else Dec.zero
        balance := if amounts.length > 1 then amounts.getLast? else none }

/-- The outer while loop (index.ts lines 225-318) over the split lines with
scan index `i`: a non-anchor line advances by one; an anchor line collects
its block, possibly emits a transaction, and in every branch continues at
the index `j` returned by the lookahead. Each iteration advances the index
by at least one (`collectBlock` starts at `i + 1` and never moves backwards,
`collectBlock_le_snd` below), so `fuel = lines.length ≥ lines.length - i` at
the entry point keeps the fuel-exhaustion case unreachable while
`i < lines.length`. -/
def parseLoop (lines : List String) (year : Nat) : Nat → Nat →
    List ParsedTransaction → List ParsedTransaction
  | 0, _, acc => acc
  | fuel + 1, i, acc =>
    if h : i < lines.length then
      match anchorDayMon lines[i] with
      | none => parseLoop lines year fuel (i + 1) acc
      | some dm =>
        match buildRecord year dm.1 dm.2
            (collectBlock lines lines.length (i + 1) []).1 with
        | none => parseLoop lines year fuel
            (collectBlock lines lines.length (i + 1) []).2 acc
        | some txn => parseLoop lines year fuel
            (collectBlock lines lines.length (i + 1) []).2 (acc ++ [txn])
    else acc

structure StatementSummary where
  period : String
  startDate : String
  endDate : String
  openingBalance : Dec
  closingBalance : Dec
  totalDebits : Dec
  totalCredits : Dec
  transactions : List ParsedTransaction
deriving DecidableEq

/-- The function `parseBCAStatement` of index.ts lines 191-335. `currentYear`
stands for the current clock year, the default when no period header matches;
the currency parameter of the source is unused inside the function body and
is omitted. -/
def parseBCAStatement (text : String) (currentYear : Nat) : StatementSummary :=
  let pm := scanFirst periodMatchAt text.data
  let period :=
    match pm with
    | some (mname, ydigits) => String.mk mname ++ " " ++ String.mk ydigits
    | none => ""
  let year :=
    match pm with
    | some (_, ydigits) => digitsToNat ydigits
    | none => currentYear
  let month :=
    match pm with
    | some (mname, _) => monthMapLookup (String.mk (mname.map Char.toUpper))
    | none => 1
  let openingBalance :=
    match scanFirst (saldoMatchAt "AWAL") text.data with
    | some s => parseAmount s
    | none => Dec.zero
  let closingBalance :=
    match scanFirst (saldoMatchAt "AKHIR") text.data with
    | some s => parseAmount s
    | none => Dec.zero
  let transactions := parseLoop (splitLines text) year (splitLines text).length 0 []
  { period := period
    startDate := toString year ++ "-" ++ pad2 month ++ "-01"
    endDate := toString year ++ "-" ++ pad2 month ++ "-" ++ pad2 (daysInMonth year month)
    openingBalance := openingBalance
    closingBalance := closingBalance
    totalDebits := transactions.foldl (fun s t => s.add t.debitAmount) Dec.zero
    totalCredits := transactions.foldl (fun s t => s.add t.creditAmount) Dec.zero
    transactions := transactions }

/-- One iteration of the outer scan loop, as a function of the current index:
a non-anchor line advances to `i + 1`; an anchor line advances to the `j`
returned by the block lookahead, exactly as every branch of the loop body
sets the index (index.ts lines 230, 238, 265, 270, 286, 317). -/
def nextScanIndex (lines : List String) (i : Nat) : Nat :=
  if _h : i < lines.length then
    match anchorDayMon lines[i] with
    | none => i + 1
    | some _ => (collectBlock lines lines.length (i + 1) []).2
  else i

/-! ## The PDF text extractor (index.ts lines 166-189) -/

/-- One global-replace pass over a two-character pattern, non-overlapping and
left to right, as each of the six chained replace calls of index.ts lines
175-181 performs. -/
def replace2 (p1 p2 : Char) (repl : List Char) : List Char → List Char
  | [] => []
  | [c] => [c]
  | c1 :: c2 :: rest =>
    if c1 = p1 && c2 = p2 then repl ++ replace2 p1 p2 repl rest
    else c1 :: replace2 p1 p2 repl (c2 :: rest)

/-- The per-literal unescape chain of index.ts lines 175-181, in source
order: backslash-n becomes a newline, backslash-r is removed, backslash-t
becomes a space, a doubled backslash becomes one backslash, and escaped
parentheses become parentheses. -/
def unescapePdf (s : String) : String :=
  String.mk (replace2 '\\' ')' [')']
    (replace2 '\\' '(' ['(']
      (replace2 '\\' '\\' ['\\']
        (replace2 '\\' 't' [' ']
          (replace2 '\\' 'r' []
            (replace2 '\\' 'n' ['\n'] s.data))))))

/-- The exec loop of index.ts lines 172-183 over the decoded bytes, as a
character-level scanner: the global regex repeatedly finds an opening
parenthesis, one or more non-close-parenthesis characters, and a closing
parenthesis, captures the inner run, unescapes it and collects it; scanning
resumes after the match. `st` is `none` outside a candidate literal and
`some acc` inside one, with the inner characters so far reversed in `acc`;
an immediately-closed empty pair is not a match (the inner run must be
nonempty) and scanning continues after it, and an unclosed opening
parenthesis matches nothing. -/
def pdfScan : Option (List Char) → List Char → List String
  | _, [] => []
  | none, c :: cs => if c = '(' then pdfScan (some []) cs else pdfScan none cs
  | some acc, c :: cs =>
    if c = ')' then
      if acc.isEmpty then pdfScan none cs
      else unescapePdf (String.mk acc.reverse) :: pdfScan none cs
    else pdfScan (some (c :: acc)) cs

/-- The function `extractTextFromPDF` of index.ts lines 166-189 on the
permissively decoded byte text (`raw` stands for the output of the
non-fatal utf-8 TextDecoder): collect every unescaped literal and join the
parts with a newline. -/
def extractTextFromPDF (raw : String) : String :=
  String.intercalate "\n" (pdfScan none raw.data)

/-- The same scanner, collecting the raw (not yet unescaped) literal
contents, used to state how the extractor's output decomposes. -/
def pdfLiterals : Option (List Char) → List Char → List String
  | _, [] => []
  | none, c :: cs => if c = '(' then pdfLiterals (some []) cs else pdfLiterals none cs
  | some acc, c :: cs =>
    if c = ')' then
      if acc.isEmpty then pdfLiterals none cs
      else String.mk acc.reverse :: pdfLiterals none cs
    else pdfLiterals (some (c :: acc)) cs

/-! ## Reconciliation-state operations
(BankReconciliationEnhanced.tsx lines 344-415) -/

inductive RecStatus
  | unmatched
  | suggested
  | matched
  | recorded
deriving DecidableEq

/-- A persisted bank_statement_lines row, with the fields the reconciliation
operations read and write: `matchedEntryId` models the matched_entry_id
column (the link cleared by rejectMatch) and `matchedExpenseId` the
matched_expense_id column written when recording an expense. -/
structure StatementLine where
  id : Nat
  date : String
  description : String
  debit : Dec
  credit : Dec
  status : RecStatus
  matchedEntryId : Option Nat
  matchedExpenseId : Option Nat
deriving DecidableEq

/-- The function `confirmMatch` of BankReconciliationEnhanced.tsx lines
344-354: the update sets only reconciliation_status to matched; no other
column is written. -/
def confirmMatch (line : StatementLine) : StatementLine :=
  { line with status := RecStatus.matched }

/-- The function `rejectMatch` of BankReconciliationEnhanced.tsx lines
356-369: the update sets reconciliation_status to unmatched and
matched_entry_id to null. -/
def rejectMatch (line : StatementLine) : StatementLine :=
  { line with status := RecStatus.unmatched, matchedEntryId := none }

/-- A persisted finance_expenses row with the fields the recording operation
writes (the created_by user id is external authentication state and is
omitted). -/
structure ExpenseRow where
  id : Nat
  category : String
  amount : Dec
  expenseDate : String
  description : String
deriving DecidableEq

/-- The finance_expenses insert payload of BankReconciliationEnhanced.tsx
lines 382-392: category, the line's debit as amount, the line's date, and
the given description with the line's description as fallback for the empty
string (JS or-fallback on a falsy value); `newId` models the id the store
assigns to the inserted row. -/
def expenseFromLine (line : StatementLine) (category description : String)
    (newId : Nat) : ExpenseRow :=
  { id := newId
    category := category
    amount := line.debit
    expenseDate := line.date
    description := if description = "" then line.description else description }

/-- The function `handleRecordExpense` of BankReconciliationEnhanced.tsx
lines 376-415: insert a finance_expenses row built from the line, then
update the statement line to recorded with matched_expense_id set. The
source checks the insert's error and throws, but never checks the update's
error and reports success regardless; the two flags model the two
persistence outcomes decided by the external store. Returns the resulting
line, the expense table, and whether success was reported. -/
def handleRecordExpense (line : StatementLine) (expenses : List ExpenseRow)
    (category description : String) (newId : Nat)
    (insertFails updateFails : Bool) : StatementLine × List ExpenseRow × Bool :=
  if insertFails then (line, expenses, false)
  else
    if updateFails then
      (line, expenses ++ [expenseFromLine line category description newId], true)
    else
      ({ line with status := RecStatus.recorded, matchedExpenseId := some newId },
       expenses ++ [expenseFromLine line category description newId], true)

/-! ## Import persistence (index.ts lines 99-144) -/

/-- A bank_statement_uploads row, reduced to the fields the atomicity claim
is about. -/
structure UploadRow where
  uploadId : Nat
  transactionCount : Nat
deriving DecidableEq

/-- A bank_statement_lines row, reduced to its owning upload. -/
structure LineRow where
  uploadId : Nat
deriving DecidableEq

/-- The persisted state touched by one import. -/
structure ImportDB where
  uploads : List UploadRow
  stmtLines : List LineRow
deriving DecidableEq

/-- The persistence steps of the serve handler after a successful parse
(index.ts lines 99-144): insert the bank_statement_uploads row with
transaction_count equal to the number of parsed transactions, then insert
all bank_statement_lines rows in one statement; each insert's
success/failure is decided by the external store (the flags). On a failed
lines insert the handler throws, and the already-inserted upload row is not
deleted — there is no rollback step anywhere in the handler. Returns the
resulting state and whether the import succeeded. -/
def importPersist (db : ImportDB) (newUploadId txnCount : Nat)
    (uploadInsertFails linesInsertFails : Bool) : ImportDB × Bool :=
  if uploadInsertFails then (db, false)
  else
    if linesInsertFails then
      ({ db with uploads := db.uploads ++ [⟨newUploadId, txnCount⟩] }, false)
    else
      ({ uploads := db.uploads ++ [⟨newUploadId, txnCount⟩],
         stmtLines := db.stmtLines ++ List.replicate txnCount ⟨newUploadId⟩ }, true)

/-- Number of persisted statement lines belonging to an upload. -/
def persistedLineCount (db : ImportDB) (uid : Nat) : Nat :=
  (db.stmtLines.filter (fun r => r.uploadId == uid)).length

/-! ## Value-level facts about decimals -/

theorem Dec.toQ_zero : Dec.zero.toQ = 0 := by
  simp [Dec.toQ, Dec.zero]

theorem Dec.toQ_add (a b : Dec) : (a.add b).toQ = a.toQ + b.toQ := by
  unfold Dec.toQ Dec.add
  have ha : ((10 : ℚ) ^ a.scale) ≠ 0 := by positivity
  have hb : ((10 : ℚ) ^ b.scale) ≠ 0 := by positivity
  rw [div_add_div _ _ ha hb, pow_add]
  push_cast
  ring

theorem Dec.blt_iff (a b : Dec) : a.blt b = true ↔ a.toQ < b.toQ := by
  unfold Dec.blt Dec.toQ
  have ha : (0 : ℚ) < 10 ^ a.scale := by positivity
  have hb : (0 : ℚ) < 10 ^ b.scale := by positivity
  rw [div_lt_div_iff₀ ha hb, decide_eq_true_iff]
  constructor
  · intro h
    calc (a.mant : ℚ) * 10 ^ b.scale
        = ((a.mant * 10 ^ b.scale : Nat) : ℚ) := by push_cast; ring
      _ < ((b.mant * 10 ^ a.scale : Nat) : ℚ) := by exact_mod_cast h
      _ = (b.mant : ℚ) * 10 ^ a.scale := by push_cast; ring
  · intro h
    have hq : ((a.mant * 10 ^ b.scale : Nat) : ℚ) < ((b.mant * 10 ^ a.scale : Nat) : ℚ) := by
      push_cast
      linarith
    exact_mod_cast hq

theorem Dec.toQ_nonneg (d : Dec) : 0 ≤ d.toQ := by
  unfold Dec.toQ
  positivity

/-! ## Facts about the lookahead loop -/

theorem collectBlock_le_snd (lines : List String) :
    ∀ fuel j acc, j ≤ (collectBlock lines fuel j acc).2 := by
  intro fuel
  induction fuel with
  | zero => intro j acc; exact Nat.le_refl j
  | succ fuel ih =>
    intro j acc
    rw [collectBlock]
    split
    · split
      · exact Nat.le_refl j
      · split
        · exact Nat.le_succ j
        · exact Nat.le_trans (Nat.le_succ j) (ih (j + 1) _)
    · exact Nat.le_refl j

/-! ## Claim C3: the five disambiguation steps of the amount normalizer -/

/-- C3: for every input string over digits, dot and comma, `parseAmount`
applies the five disambiguation steps in order (first match wins: more than
one dot strips dots and converts the comma; else more than one comma strips
commas; else one dot and one comma strips the dot and converts the comma;
else a lone comma becomes the decimal point; else direct parse) and returns
the resulting decimal, or 0 if unparseable, never an error (the model is a
total function); in particular 1.234.567 maps to 1234567, 1234,56 to
1234.56, 1.234,56 to 1234.56 and 1,234,567 to 1234567. -/
theorem parseAmount_five_steps :
    (∀ s : String, (∀ c ∈ s.data, isAmountChar c = true) →
      parseAmount s = parseAmountSpec s)
    ∧ (parseAmount "1.234.567").toQ = 1234567
    ∧ (parseAmount "1234,56").toQ = 1234.56
    ∧ (parseAmount "1.234,56").toQ = 1234.56
    ∧ (parseAmount "1,234,567").toQ = 1234567 := by
  refine ⟨?_, ?_, ?_, ?_, ?_⟩
  · intro s halpha
    have hfilter : s.data.filter isAmountChar = s.data := List.filter_eq_self.mpr halpha
    unfold parseAmount parseAmountSpec
    rw [hfilter]
    by_cases hs : s = ""
    · subst hs
      decide
    · rw [if_neg hs]
      by_cases h1 : countChar s.data '.' > 1
      · simp [h1]
      · by_cases h2 : countChar s.data ',' > 1
        · simp [h1, h2]
        · by_cases h3 : countChar s.data '.' = 1 ∧ countChar s.data ',' = 1
          · simp [h1, h2, h3]
          · by_cases h4 : countChar s.data ',' = 1
            · have hd0 : countChar s.data '.' = 0 := by omega
              simp [h1, h2, h3, h4, hd0]
            · simp [h1, h2, h3, h4]
  · have h : parseAmount "1.234.567" = ⟨1234567, 0⟩ := by decide
    rw [h]; unfold Dec.toQ; norm_num
  · have h : parseAmount "1234,56" = ⟨123456, 2⟩ := by decide
    rw [h]; unfold Dec.toQ; norm_num
  · have h : parseAmount "1.234,56" = ⟨123456, 2⟩ := by decide
    rw [h]; unfold Dec.toQ; norm_num
  · have h : parseAmount "1,234,567" = ⟨1234567, 0⟩ := by decide
    rw [h]; unfold Dec.toQ; norm_num

/-- Witness for C3: the universal part applied to the concrete input
1.234,56, whose characters all lie in the digits/dot/comma alphabet. -/
theorem parseAmount_five_steps_witness :
    (∀ c ∈ "1.234,56".data, isAmountChar c = true)
    ∧ parseAmount "1.234,56" = parseAmountSpec "1.234,56" :=
  ⟨by decide, parseAmount_five_steps.1 "1.234,56" (by decide)⟩

/-! ## Claim C9: totality and nonnegativity of the amount normalizer -/

/-- C9: `parseAmount` is total on every input string, not only those over
digits, dot and comma (the model is a total function whose NaN case is
mapped to 0 by the trailing or-zero, so it never throws and never returns
NaN), its value is always nonnegative, and the character filter removes any
minus sign before `parseFloat` ever sees the string, so a negative amount
can never be produced. -/
theorem parseAmount_total_nonneg :
    (∀ s : String, 0 ≤ (parseAmount s).toQ)
    ∧ (∀ s : String, '-' ∉ s.data.filter isAmountChar) := by
  constructor
  · intro s
    exact Dec.toQ_nonneg _
  · intro s hmem
    have hc := List.of_mem_filter hmem
    simp [isAmountChar] at hc

/-! ## Claim C1: the summary totals are the sums over the transactions -/

theorem foldl_add_toQ (f : ParsedTransaction → Dec) :
    ∀ (l : List ParsedTransaction) (c : Dec),
      (l.foldl (fun s t => s.add (f t)) c).toQ
        = c.toQ + (l.map (fun t => (f t).toQ)).sum := by
  intro l
  induction l with
  | nil => intro c; simp
  | cons x xs ih =>
    intro c
    simp only [List.foldl_cons, List.map_cons, List.sum_cons]
    rw [ih, Dec.toQ_add]
    ring

/-- C1: for every StatementSummary produced by `parseBCAStatement`,
totalDebits equals the sum of debitAmount over its transactions sequence and
totalCredits equals the sum of creditAmount over its transactions sequence,
exactly. -/
theorem totals_are_transaction_sums (text : String) (currentYear : Nat) :
    (parseBCAStatement text currentYear).totalDebits.toQ
      = ((parseBCAStatement text currentYear).transactions.map
          (fun t => t.debitAmount.toQ)).sum
    ∧ (parseBCAStatement text currentYear).totalCredits.toQ
      = ((parseBCAStatement text currentYear).transactions.map
          (fun t => t.creditAmount.toQ)).sum := by
  constructor <;>
    · simp only [parseBCAStatement]
      rw [foldl_add_toQ]
      simp [Dec.toQ_zero]

/-! ## Claim C4: every emitted transaction has exactly one side nonzero -/

theorem headD_filter_pos (l : List Dec)
    (hne : ¬((l.filter (fun a => Dec.zero.blt a && a.blt ⟨100000000000, 0⟩)).isEmpty = true)) :
    0 < ((l.filter (fun a => Dec.zero.blt a && a.blt ⟨100000000000, 0⟩)).headD Dec.zero).toQ := by
  set fl := l.filter (fun a => Dec.zero.blt a && a.blt ⟨100000000000, 0⟩) with hfl
  obtain ⟨a, rest, hA⟩ := List.exists_cons_of_ne_nil (by simpa using hne)
  have hmem : a ∈ fl := by rw [hA]; exact List.mem_cons_self a rest
  have hpred := List.of_mem_filter (hfl ▸ hmem)
  have h1 : Dec.zero.blt a = true := by
    simp only [Bool.and_eq_true] at hpred
    exact hpred.1
  have h2 := (Dec.blt_iff Dec.zero a).mp h1
  rw [Dec.toQ_zero] at h2
  rw [hA]
  simpa using h2

theorem buildRecord_debit_xor_credit (year day mon : Nat) (bl : List String)
    (txn : ParsedTransaction) (h : buildRecord year day mon bl = some txn) :
    (txn.debitAmount.toQ = 0 ∧ 0 < txn.creditAmount.toQ) ∨
    (0 < txn.debitAmount.toQ ∧ txn.creditAmount.toQ = 0) := by
  unfold buildRecord at h
  dsimp only at h
  split_ifs at h
  all_goals rw [Option.some_inj] at h
  all_goals subst h
  all_goals first
    | exact Or.inl ⟨Dec.toQ_zero, headD_filter_pos _ (by assumption)⟩
    | exact Or.inr ⟨headD_filter_pos _ (by assumption), Dec.toQ_zero⟩

theorem parseLoop_mem (lines : List String) (year : Nat) :
    ∀ fuel i acc txn, txn ∈ parseLoop lines year fuel i acc →
      txn ∈ acc ∨ ∃ day mon bl, buildRecord year day mon bl = some txn := by
  intro fuel
  induction fuel with
  | zero => intro i acc txn h; exact Or.inl h
  | succ fuel ih =>
    intro i acc txn h
    rw [parseLoop] at h
    split at h
    · split at h
      · exact ih _ _ _ h
      · split at h
        · exact ih _ _ _ h
        · rcases ih _ _ _ h with hacc | hex
          · rcases List.mem_append.mp hacc with h1 | h2
            · exact Or.inl h1
            · rw [List.mem_singleton] at h2
              subst h2
              rename_i dm hdm txn2 heq
              exact Or.inr ⟨dm.1, dm.2, _, heq⟩
          · exact Or.inr hex
    · exact Or.inl h

/-- C4: every TransactionRecord emitted by the record builder has exactly one
of debitAmount/creditAmount nonzero (it is positive) and the other equal
to 0; a block whose amounts are all removed by the (0, 1e11) range filter is
discarded, so a record with both sides 0 is never emitted. -/
theorem emitted_debit_xor_credit (text : String) (currentYear : Nat)
    (txn : ParsedTransaction)
    (h : txn ∈ (parseBCAStatement text currentYear).transactions) :
    (txn.debitAmount.toQ = 0 ∧ 0 < txn.creditAmount.toQ) ∨
    (0 < txn.debitAmount.toQ ∧ txn.creditAmount.toQ = 0) := by
  simp only [parseBCAStatement] at h
  rcases parseLoop_mem _ _ _ _ _ _ h with hacc | ⟨d, m, bl, hb⟩
  · simp at hacc
  · exact buildRecord_debit_xor_credit _ _ _ _ _ hb

set_option maxRecDepth 4000 in
/-- Witness for C4: the theorem applied to the credit transaction parsed out
of a small concrete statement text. -/
theorem emitted_debit_xor_credit_witness :
    ((⟨"2026-02-01", "AB 1,5 CR 2", "", "", ⟨0, 0⟩, ⟨15, 1⟩, some ⟨2, 0⟩⟩ : ParsedTransaction)
        ∈ (parseBCAStatement "01/02\nAB 1,5 CR 2" 2026).transactions)
    ∧ (((⟨"2026-02-01", "AB 1,5 CR 2", "", "", ⟨0, 0⟩, ⟨15, 1⟩, some ⟨2, 0⟩⟩ : ParsedTransaction).debitAmount.toQ = 0
          ∧ 0 < (⟨"2026-02-01", "AB 1,5 CR 2", "", "", ⟨0, 0⟩, ⟨15, 1⟩, some ⟨2, 0⟩⟩ : ParsedTransaction).creditAmount.toQ)
        ∨ (0 < (⟨"2026-02-01", "AB 1,5 CR 2", "", "", ⟨0, 0⟩, ⟨15, 1⟩, some ⟨2, 0⟩⟩ : ParsedTransaction).debitAmount.toQ
          ∧ (⟨"2026-02-01", "AB 1,5 CR 2", "", "", ⟨0, 0⟩, ⟨15, 1⟩, some ⟨2, 0⟩⟩ : ParsedTransaction).creditAmount.toQ = 0)) := by
  have hmem : (⟨"2026-02-01", "AB 1,5 CR 2", "", "", ⟨0, 0⟩, ⟨15, 1⟩, some ⟨2, 0⟩⟩ : ParsedTransaction)
      ∈ (parseBCAStatement "01/02\nAB 1,5 CR 2" 2026).transactions := by
    have h : (parseBCAStatement "01/02\nAB 1,5 CR 2" 2026).transactions
        = [⟨"2026-02-01", "AB 1,5 CR 2", "", "", ⟨0, 0⟩, ⟨15, 1⟩, some ⟨2, 0⟩⟩] := by decide
    rw [h]
    exact List.mem_singleton_self _
  exact ⟨hmem, emitted_debit_xor_credit _ 2026 _ hmem⟩

/-! ## Claim C7: a block never reaches the next date anchor -/

theorem collectBlock_snd_le_anchor (lines : List String) (p : Nat)
    (hp : p < lines.length) (hanchor : isValidAnchor (lines.getD p "") = true) :
    ∀ fuel j acc, j ≤ p →
      (∀ q, j ≤ q → q < p → isValidAnchor (lines.getD q "") = false) →
      (collectBlock lines fuel j acc).2 ≤ p := by
  intro fuel
  induction fuel with
  | zero => intro j acc hj _; exact hj
  | succ fuel ih =>
    intro j acc hj hno
    rw [collectBlock]
    have hjlen : j < lines.length := lt_of_le_of_lt hj hp
    rw [dif_pos hjlen]
    by_cases hja : isValidAnchor lines[j] = true
    · rw [if_pos hja]
      exact hj
    · rw [if_neg hja]
      have hjp : j < p := by
        rcases Nat.lt_or_ge j p with hlt | hge
        · exact hlt
        · have heq : j = p := Nat.le_antisymm hj hge
          subst heq
          rw [List.getD_eq_getElem _ _ hjlen] at hanchor
          exact absurd hanchor hja
      by_cases hcap : acc.length + 1 > 30
      · rw [if_pos hcap]
        exact hjp
      · rw [if_neg hcap]
        exact ih (j + 1) _ hjp (fun q hq1 hq2 => hno q (Nat.le_of_succ_le hq1) hq2)

theorem collectBlock_fst_slice (lines : List String) :
    ∀ fuel j acc, (collectBlock lines fuel j acc).1
      = acc ++ (lines.drop j).take ((collectBlock lines fuel j acc).2 - j) := by
  intro fuel
  induction fuel with
  | zero => intro j acc; simp [collectBlock]
  | succ fuel ih =>
    intro j acc
    rw [collectBlock]
    by_cases hj : j < lines.length
    · rw [dif_pos hj]
      by_cases hja : isValidAnchor lines[j] = true
      · rw [if_pos hja]
        simp
      · rw [if_neg hja]
        by_cases hcap : acc.length + 1 > 30
        · rw [if_pos hcap]
          rw [List.drop_eq_getElem_cons hj]
          have h1 : (j + 1) - j = 1 := by omega
          rw [h1, List.take_succ_cons, List.take_zero]
        · rw [if_neg hcap]
          rw [ih (j + 1) (acc ++ [lines[j]])]
          have hk : j + 1 ≤ (collectBlock lines fuel (j + 1) (acc ++ [lines[j]])).2 :=
            collectBlock_le_snd lines fuel (j + 1) _
          rw [List.drop_eq_getElem_cons hj]
          rw [List.append_assoc]
          congr 1
          have hsub : (collectBlock lines fuel (j + 1) (acc ++ [lines[j]])).2 - j
              = ((collectBlock lines fuel (j + 1) (acc ++ [lines[j]])).2 - (j + 1)) + 1 := by
            omega
          rw [hsub]
          rw [List.take_succ_cons]
          rfl
    · rw [dif_neg hj]
      simp

/-- C7: when a block is opened by the valid date anchor at index `i` and the
next valid date anchor of the stream sits at index `p`, the lookahead stops
at an index no larger than `p`, and the collected block is exactly the run
of lines from `i + 1` up to that stop index — so the first block never
includes the second anchor line or anything after it. -/
theorem first_block_excludes_second_anchor (lines : List String) (i p : Nat)
    (hp : p < lines.length) (hip : i < p)
    (hanchor : isValidAnchor (lines.getD p "") = true)
    (hbetween : ∀ q, i < q → q < p → isValidAnchor (lines.getD q "") = false) :
    (collectBlock lines lines.length (i + 1) []).2 ≤ p ∧
    (collectBlock lines lines.length (i + 1) []).1
      = (lines.drop (i + 1)).take
          ((collectBlock lines lines.length (i + 1) []).2 - (i + 1)) := by
  constructor
  · exact collectBlock_snd_le_anchor lines p hp hanchor lines.length (i + 1) []
      hip (fun q h1 h2 => hbetween q (Nat.lt_of_succ_le h1) h2)
  · simpa using collectBlock_fst_slice lines lines.length (i + 1) []

/-- Witness for C7: a four-line stream with anchors at indices 0 and 2; the
block opened at index 0 stops at index 2 and holds exactly the one line
between the anchors. -/
theorem first_block_excludes_second_anchor_witness :
    isValidAnchor ((["01/02", "x y z", "03/04", "foo"] : List String).getD 2 "") = true
    ∧ ((collectBlock ["01/02", "x y z", "03/04", "foo"]
          (["01/02", "x y z", "03/04", "foo"] : List String).length 1 []).2 ≤ 2
      ∧ (collectBlock ["01/02", "x y z", "03/04", "foo"]
          (["01/02", "x y z", "03/04", "foo"] : List String).length 1 []).1
        = ((["01/02", "x y z", "03/04", "foo"] : List String).drop 1).take
            ((collectBlock ["01/02", "x y z", "03/04", "foo"]
              (["01/02", "x y z", "03/04", "foo"] : List String).length 1 []).2 - 1)) :=
  ⟨by decide,
   first_block_excludes_second_anchor ["01/02", "x y z", "03/04", "foo"] 0 2
     (by decide) (by decide) (by decide)
     (fun q h1 h2 => by
       have hq : q = 1 := by omega
       subst hq
       decide)⟩

/-! ## Claim C10: the scan index strictly increases -/

/-- C10: for every line list, each iteration of the transaction-scanning
loop strictly increases the scan index — a non-anchor line moves to `i + 1`
and an anchor line moves to the lookahead's `j ≥ i + 1` — so the loop
terminates after at most one pass over the finite array of lines. -/
theorem scan_index_strictly_increases (lines : List String) (i : Nat)
    (h : i < lines.length) : i < nextScanIndex lines i := by
  unfold nextScanIndex
  rw [dif_pos h]
  rcases hA : anchorDayMon lines[i] with _ | dm <;> simp [hA]
  exact Nat.lt_of_lt_of_le (Nat.lt_succ_self i)
    (collectBlock_le_snd lines lines.length (i + 1) [])

/-- Witness for C10: the step theorem applied at index 0 of a concrete
two-line stream. -/
theorem scan_index_strictly_increases_witness :
    (0 < (["01/02", "x"] : List String).length) ∧ 0 < nextScanIndex ["01/02", "x"] 0 :=
  ⟨by decide, scan_index_strictly_increases ["01/02", "x"] 0 (by decide)⟩

/-! ## Claim C8: what the extractor's unescaping actually does -/

/-- C8 counterexample: the claim says each of the six escapes yields the
character it denotes, but on the literal containing a backslash-t the
extractor produces a space, not a tab, and on backslash-r it produces
nothing, not a carriage return. -/
theorem extract_tab_escape_not_tab :
    extractTextFromPDF "(a\\tb)" = "a b" ∧ extractTextFromPDF "(a\\tb)" ≠ "a\tb"
    ∧ extractTextFromPDF "(a\\rb)" = "ab" ∧ extractTextFromPDF "(a\\rb)" ≠ "a\rb" := by
  refine ⟨by decide, by decide, by decide, by decide⟩

theorem pdfScan_eq_map (cs : List Char) :
    ∀ st, pdfScan st cs = (pdfLiterals st cs).map unescapePdf := by
  induction cs with
  | nil => intro st; cases st <;> rfl
  | cons c cs ih =>
    intro st
    cases st with
    | none =>
      by_cases hc : c = '('
      · simp [pdfScan, pdfLiterals, hc, ih]
      · simp [pdfScan, pdfLiterals, hc, ih]
    | some acc =>
      by_cases hc : c = ')'
      · by_cases ha : acc.isEmpty <;> simp [pdfScan, pdfLiterals, hc, ha, ih]
      · simp [pdfScan, pdfLiterals, hc, ih]

/-- C8 amended: for every parenthesis-delimited literal found in the
document bytes, the extractor rewrites the backslash sequences in source
order — backslash-n to a newline, backslash-backslash to a backslash,
escaped parentheses to parentheses, while backslash-r is removed (not a
carriage return) and backslash-t becomes a space (not a tab) — and
concatenates all recovered fragments, joined by a single newline separator,
preserving encounter order. -/
theorem extract_unescape_and_join :
    unescapePdf "\\n" = "\n" ∧ unescapePdf "\\\\" = "\\" ∧ unescapePdf "\\(" = "("
    ∧ unescapePdf "\\)" = ")" ∧ unescapePdf "\\r" = "" ∧ unescapePdf "\\t" = " "
    ∧ ∀ raw : String,
        extractTextFromPDF raw
          = String.intercalate "\n" ((pdfLiterals none raw.data).map unescapePdf) := by
  refine ⟨by decide, by decide, by decide, by decide, by decide, by decide, ?_⟩
  intro raw
  unfold extractTextFromPDF
  rw [pdfScan_eq_map]

/-! ## Claim C5: confirming and rejecting a suggested line -/

/-- C5 counterexample: confirming a suggested line does not set
matchedEntryId — the update writes only the status, so a suggested line
whose matchedEntryId is absent is matched with the link still absent,
falsifying that confirmation persists the link by setting matchedEntryId. -/
theorem confirm_sets_no_link :
    (confirmMatch ⟨7, "2026-01-05", "FEE", ⟨100, 0⟩, ⟨0, 0⟩,
        RecStatus.suggested, none, none⟩).status = RecStatus.matched
    ∧ (confirmMatch ⟨7, "2026-01-05", "FEE", ⟨100, 0⟩, ⟨0, 0⟩,
        RecStatus.suggested, none, none⟩).matchedEntryId = none := by
  decide

/-- C5 amended: confirming a suggested line transitions it to matched and
leaves matchedEntryId unchanged (the update writes only the status; any link
set when the suggestion was made is preserved, never set here); rejecting a
suggested line transitions it to unmatched and clears matchedEntryId. -/
theorem confirm_reject_transitions (l : StatementLine)
    (_h : l.status = RecStatus.suggested) :
    (confirmMatch l).status = RecStatus.matched
    ∧ (confirmMatch l).matchedEntryId = l.matchedEntryId
    ∧ (rejectMatch l).status = RecStatus.unmatched
    ∧ (rejectMatch l).matchedEntryId = none :=
  ⟨rfl, rfl, rfl, rfl⟩

/-- Witness for C5: the amended theorem applied to a concrete suggested line
carrying a link. -/
theorem confirm_reject_transitions_witness :
    ((⟨7, "2026-01-05", "FEE", ⟨100, 0⟩, ⟨0, 0⟩, RecStatus.suggested, some 3, none⟩
        : StatementLine).status = RecStatus.suggested)
    ∧ ((confirmMatch ⟨7, "2026-01-05", "FEE", ⟨100, 0⟩, ⟨0, 0⟩,
          RecStatus.suggested, some 3, none⟩).status = RecStatus.matched
      ∧ (confirmMatch ⟨7, "2026-01-05", "FEE", ⟨100, 0⟩, ⟨0, 0⟩,
          RecStatus.suggested, some 3, none⟩).matchedEntryId
          = (⟨7, "2026-01-05", "FEE", ⟨100, 0⟩, ⟨0, 0⟩,
              RecStatus.suggested, some 3, none⟩ : StatementLine).matchedEntryId
      ∧ (rejectMatch ⟨7, "2026-01-05", "FEE", ⟨100, 0⟩, ⟨0, 0⟩,
          RecStatus.suggested, some 3, none⟩).status = RecStatus.unmatched
      ∧ (rejectMatch ⟨7, "2026-01-05", "FEE", ⟨100, 0⟩, ⟨0, 0⟩,
          RecStatus.suggested, some 3, none⟩).matchedEntryId = none) :=
  ⟨by decide, confirm_reject_transitions _ (by decide)⟩

/-! ## Claim C6: recording an expense is not atomic in the code -/

/-- C6: the combined record-an-expense operation of the code is not
all-or-nothing — when the expense insert succeeds and the status update
fails, the line stays unmatched while the newly created finance_expenses row
remains persisted (an orphaned unlinked entry), and the handler still
reports success because the update's error is never checked. -/
theorem record_expense_not_atomic :
    (handleRecordExpense ⟨7, "2026-01-05", "FEE", ⟨100, 0⟩, ⟨0, 0⟩,
        RecStatus.unmatched, none, none⟩ [] "bank_charges" "" 42 false true).1.status
      = RecStatus.unmatched
    ∧ (handleRecordExpense ⟨7, "2026-01-05", "FEE", ⟨100, 0⟩, ⟨0, 0⟩,
        RecStatus.unmatched, none, none⟩ [] "bank_charges" "" 42 false true).2.1
      = [⟨42, "bank_charges", ⟨100, 0⟩, "2026-01-05", "FEE"⟩]
    ∧ (handleRecordExpense ⟨7, "2026-01-05", "FEE", ⟨100, 0⟩, ⟨0, 0⟩,
        RecStatus.unmatched, none, none⟩ [] "bank_charges" "" 42 false true).2.2 = true := by
  decide

/-! ## Claim C2: the import is not rolled back on a lines-insert failure -/

/-- C2: importing a statement is not atomic in the code — when the upload
row is inserted and the subsequent bank_statement_lines insert fails, the
handler reports an error but the upload row stays persisted with
transaction_count 1 while zero line rows exist for it, a lasting
count/lines disagreement that full rollback would forbid. -/
theorem import_not_rolled_back :
    (importPersist ⟨[], []⟩ 1 1 false true).2 = false
    ∧ (importPersist ⟨[], []⟩ 1 1 false true).1.uploads = [⟨1, 1⟩]
    ∧ persistedLineCount (importPersist ⟨[], []⟩ 1 1 false true).1 1 = 0
    ∧ (1 : Nat) ≠ 0 := by
  decide

end Anzen
